import Mathlib

/-!
# Verification of the minute-aggregation trading pipeline

A shallow embedding, in Lean 4, of the core computations of the
tick-to-candle-to-alert pipeline:

* `candle_builder_1m.py` — minute candle aggregation with last-tick depth
  snapshots (`process_minute_candle`, `extract_last_tick_depth`,
  `compute_depth_metrics`, `calculate_bias`, `process_new_ticks`);
* `oi_category_builder_v2.py` — open-interest behaviour categories
  (`get_oi_category`, `process_minute_data`);
* `comprehensive_analytics_engine.py` — the stochastic oscillator, the VIX
  context, and the per-instrument Kalman filter state
  (`calculate_stochastic`, `analyze_vix`, `KalmanFilter.update`);
* `alert_engine_pro.py` — confidence scoring, cooldown, two-minute
  confirmation and alert persistence (`calculate_confidence`,
  `is_in_cooldown`, `check_signal_confirmation`, `save_alert`);
* `alert_engine_pro_old.py` — the legacy pre-insert duplicate check.

Python floats are modelled as exact rationals (`ℚ`); Python `int(x)` is
truncation toward zero and `round(x, n)` is rounding at `10 ^ n`.  SQLite
tables with a primary key and `INSERT OR REPLACE` writes are modelled as
keyed stores (`Key → Option row`); the append-only `alerts_final` table is
a list of rows.  Timestamps, which the Python code truncates to minute
resolution before comparing, are modelled as integer minute indices.
-/

namespace Trading

/-- Python `int(q)` for a rational `q`: truncation toward zero. -/
def pyInt (q : ℚ) : ℤ := if 0 ≤ q then ⌊q⌋ else -⌊-q⌋

/-- Python `round(q, n)` at exact-rational precision: round `q` at the
`n`-th decimal place.  (Python uses banker's rounding on floats; the two
agree except at exact half-ulp ties, and every rounded value appearing in a
proved statement below is shown to be a fixed point of the rounding, where
the tie policy is irrelevant.) -/
def roundTo (n : ℕ) (q : ℚ) : ℚ := (⌊q * 10 ^ n + 1 / 2⌋ : ℚ) / 10 ^ n

theorem roundTo_int_mul (n : ℕ) (k : ℤ) : roundTo n ((k : ℚ) / 10 ^ n) = (k : ℚ) / 10 ^ n := by
  have h10 : ((10 : ℚ) ^ n) ≠ 0 := by positivity
  have : ((k : ℚ) / 10 ^ n) * 10 ^ n = (k : ℚ) := by field_simp
  rw [roundTo, this]
  have : ⌊(k : ℚ) + 1 / 2⌋ = k := by
    rw [Int.floor_eq_iff]
    norm_num
  rw [this]

/-- `round(q, 2)` is the identity on integer multiples of `1/10` (all the
priority-weighted depth sums are such multiples, because quantities are
integers and the level weights are tenths). -/
theorem roundTo_two_tenth (k : ℤ) : roundTo 2 ((k : ℚ) / 10) = (k : ℚ) / 10 := by
  have h : ((k : ℚ) / 10) = ((10 * k : ℤ) : ℚ) / 10 ^ 2 := by push_cast; ring
  rw [h, roundTo_int_mul]

/-! ## Candle builder (`candle_builder_1m.py`) -/

/-- One level of an order-book depth snapshot.  The Python code reads only
`level.get('quantity', 0)` from each `{price, quantity, orders}` dict. -/
structure DepthLevel where
  quantity : ℤ
  deriving Repr, DecidableEq

/-- The fields of a parsed tick JSON blob that the pipeline reads: last
price `lp`, cumulative session volume `vol`, cumulative open interest
`oi`, and the two depth arrays.  Each scalar is optional (`dict.get`
returns `None` when the key is absent). -/
structure TickData where
  lp : Option ℚ
  vol : Option ℤ
  oi : Option ℤ
  bid : List DepthLevel
  ask : List DepthLevel
  deriving Repr, DecidableEq

/-- A tick of a minute bucket as the candle builder sees it: `none` models
a tick whose JSON failed to decode (skipped individually). -/
abbrev Tick := Option TickData

/-- `DEPTH_WEIGHTS = [1.0, 0.8, 0.6, 0.4, 0.2]` — priority weights for
depth levels 1–5. -/
def DEPTH_WEIGHTS : List ℚ := [1, 8/10, 6/10, 4/10, 2/10]

/-- `BUYER_THRESHOLD = 1.2`. -/
def BUYER_THRESHOLD : ℚ := 12/10

/-- `SELLER_THRESHOLD = 0.8`. -/
def SELLER_THRESHOLD : ℚ := 8/10

/-- `compute_depth_metrics(depth_array, weights)`: the loop sums every
level's quantity into the total, and additionally accumulates
`qty * weights[i]` while `i < len(weights)`. -/
def computeDepthMetrics : List DepthLevel → List ℚ → ℤ × ℚ
  | [], _ => (0, 0)
  | l :: ls, [] =>
    let rest := computeDepthMetrics ls []
    (l.quantity + rest.1, rest.2)
  | l :: ls, w :: ws =>
    let rest := computeDepthMetrics ls ws
    (l.quantity + rest.1, (l.quantity : ℚ) * w + rest.2)

theorem computeDepthMetrics_fst (d : List DepthLevel) (ws : List ℚ) :
    (computeDepthMetrics d ws).1 = (d.map DepthLevel.quantity).sum := by
  induction d generalizing ws with
  | nil => cases ws <;> simp [computeDepthMetrics]
  | cons l ls ih => cases ws <;> simp [computeDepthMetrics, ih]

theorem computeDepthMetrics_snd (d : List DepthLevel) (ws : List ℚ) :
    (computeDepthMetrics d ws).2
      = (List.zipWith (fun (l : DepthLevel) (w : ℚ) => (l.quantity : ℚ) * w) d ws).sum := by
  induction d generalizing ws with
  | nil => cases ws <;> simp [computeDepthMetrics]
  | cons l ls ih => cases ws <;> simp [computeDepthMetrics, ih]

/-- When every weight is an integer multiple of `1/10`, so is the weighted
quantity. -/
theorem computeDepthMetrics_snd_tenth (d : List DepthLevel) (ws : List ℚ)
    (h : ∀ w ∈ ws, ∃ j : ℤ, w = (j : ℚ) / 10) :
    ∃ k : ℤ, (computeDepthMetrics d ws).2 = (k : ℚ) / 10 := by
  induction d generalizing ws with
  | nil => exact ⟨0, by cases ws <;> simp [computeDepthMetrics]⟩
  | cons l ls ih =>
    cases ws with
    | nil =>
      obtain ⟨k, hk⟩ := ih [] (by simp)
      exact ⟨k, by simpa [computeDepthMetrics] using hk⟩
    | cons w ws =>
      obtain ⟨j, hj⟩ := h w (by simp)
      obtain ⟨k, hk⟩ := ih ws (fun w hw => h w (by simp [hw]))
      refine ⟨l.quantity * j + k, ?_⟩
      simp only [computeDepthMetrics, hj, hk]
      push_cast
      ring

/-- The result record of `extract_last_tick_depth`. -/
structure DepthMetrics where
  totalBidQty : ℤ
  totalAskQty : ℤ
  weightedBidQty : ℚ
  weightedAskQty : ℚ
  deriving Repr, DecidableEq

/-- `extract_last_tick_depth(tick_json_str)`: depth metrics of a single
tick; a JSON decode failure yields all zeroes. -/
def extractLastTickDepth : Tick → DepthMetrics
  | none => ⟨0, 0, 0, 0⟩
  | some t =>
    let bm := computeDepthMetrics t.bid DEPTH_WEIGHTS
    let am := computeDepthMetrics t.ask DEPTH_WEIGHTS
    ⟨bm.1, am.1, bm.2, am.2⟩

/-- `calculate_bias(ratio, buyer_threshold, seller_threshold)`. -/
def calculateBias (ratio buyerThreshold sellerThreshold : ℚ) : String :=
  if ratio > buyerThreshold then "BUYER_DOMINANT"
  else if ratio < sellerThreshold then "SELLER_DOMINANT"
  else "NEUTRAL"

/-- Bucket volume (`process_minute_candle` lines 293–301): last minus
first cumulative volume, clamped to the last value alone when the delta is
negative; a single reading is used as-is; no readings give 0. -/
def volumeOf : List ℤ → ℤ
  | [] => 0
  | [v] => v
  | v :: vs =>
    let vl := (v :: vs).getLast (List.cons_ne_nil v vs)
    if vl - v < 0 then vl else vl - v

/-- A row of `minute_candles` as returned by `process_minute_candle`. -/
structure CandleRow where
  openP : ℚ
  high : ℚ
  low : ℚ
  close : ℚ
  volume : ℤ
  totalBidQty : ℤ
  totalAskQty : ℤ
  bidAskRatio : ℚ
  orderImbalance : ℤ
  bidAskBias : String
  weightedBidQty : ℚ
  weightedAskQty : ℚ
  weightedBidAskRatio : ℚ
  weightedOrderImbalance : ℚ
  weightedBias : String
  deriving Repr, DecidableEq

/-- `process_minute_candle(minute_ticks)`: OHLCV over the valid prices and
volumes of the bucket, depth metrics from the last tick only, ratio
sentinels (`999.0` / `1.0`) on a zero ask side, bias labels, and the
rounding the Python dict applies before the row is stored.  Returns `none`
for an empty bucket or a bucket with no valid price. -/
def processMinuteCandle (minuteTicks : List Tick) : Option CandleRow :=
  match minuteTicks.getLast? with
  | none => none
  | some lastTick =>
    match minuteTicks.filterMap (fun t => t.bind TickData.lp) with
    | [] => none
    | p :: ps =>
      let volumes := minuteTicks.filterMap (fun t => t.bind TickData.vol)
      let dm := extractLastTickDepth lastTick
      let bidAskRatio : ℚ :=
        if 0 < dm.totalAskQty then (dm.totalBidQty : ℚ) / (dm.totalAskQty : ℚ)
        else if 0 < dm.totalBidQty then 999 else 1
      let weightedBidAskRatio : ℚ :=
        if 0 < dm.weightedAskQty then dm.weightedBidQty / dm.weightedAskQty
        else if 0 < dm.weightedBidQty then 999 else 1
      some
        { openP := p
          high := ps.foldl max p
          low := ps.foldl min p
          close := (p :: ps).getLast (List.cons_ne_nil p ps)
          volume := volumeOf volumes
          totalBidQty := dm.totalBidQty
          totalAskQty := dm.totalAskQty
          bidAskRatio := roundTo 4 bidAskRatio
          orderImbalance := dm.totalBidQty - dm.totalAskQty
          bidAskBias := calculateBias bidAskRatio BUYER_THRESHOLD SELLER_THRESHOLD
          weightedBidQty := roundTo 2 dm.weightedBidQty
          weightedAskQty := roundTo 2 dm.weightedAskQty
          weightedBidAskRatio := roundTo 4 weightedBidAskRatio
          weightedOrderImbalance := roundTo 2 (dm.weightedBidQty - dm.weightedAskQty)
          weightedBias := calculateBias weightedBidAskRatio BUYER_THRESHOLD SELLER_THRESHOLD }

/-- Every weight in `DEPTH_WEIGHTS` is an integer multiple of `1/10`. -/
theorem depth_weights_tenth : ∀ w ∈ DEPTH_WEIGHTS, ∃ j : ℤ, w = (j : ℚ) / 10 := by
  intro w hw
  simp only [DEPTH_WEIGHTS, List.mem_cons, List.not_mem_nil, or_false] at hw
  rcases hw with h | h | h | h | h <;> subst h
  · exact ⟨10, by norm_num⟩
  · exact ⟨8, by norm_num⟩
  · exact ⟨6, by norm_num⟩
  · exact ⟨4, by norm_num⟩
  · exact ⟨2, by norm_num⟩

/-- The example bucket of §8: three ticks whose bid-quantity sums are
`[100, 150, 120]` in arrival order (the last tick spreads 120 over two
levels and carries an ask side of 50). -/
def exBucketC1 : List Tick :=
  [some ⟨some 100, some 10, none, [⟨100⟩], []⟩,
   some ⟨some 102, some 20, none, [⟨150⟩], []⟩,
   some ⟨some 101, some 30, none, [⟨70⟩, ⟨50⟩], [⟨50⟩]⟩]

/-- The last tick of `exBucketC1`. -/
def exLastTickC1 : TickData := ⟨some 101, some 30, none, [⟨70⟩, ⟨50⟩], [⟨50⟩]⟩

/-- Claim C1: For every non-empty minute bucket whose last tick parsed, the
candle row's depth fields come from the last tick alone: `total_bid_qty`
and `total_ask_qty` are the sums of the per-level quantities of the last
tick's depth snapshot, and `weighted_bid_qty` / `weighted_ask_qty` are the
same quantities weighted per level by `[1.0, 0.8, 0.6, 0.4, 0.2]`.
Earlier ticks of the bucket do not appear in the right-hand sides, so
their depth snapshots contribute nothing. -/
theorem candle_depth_from_last_tick (ticks : List Tick) (td : TickData) (c : CandleRow)
    (hlast : ticks.getLast? = some (some td))
    (hc : processMinuteCandle ticks = some c) :
    c.totalBidQty = (td.bid.map DepthLevel.quantity).sum ∧
    c.totalAskQty = (td.ask.map DepthLevel.quantity).sum ∧
    c.weightedBidQty
      = (List.zipWith (fun (l : DepthLevel) (w : ℚ) => (l.quantity : ℚ) * w)
          td.bid DEPTH_WEIGHTS).sum ∧
    c.weightedAskQty
      = (List.zipWith (fun (l : DepthLevel) (w : ℚ) => (l.quantity : ℚ) * w)
          td.ask DEPTH_WEIGHTS).sum := by
  rw [processMinuteCandle, hlast] at hc
  obtain ⟨kb, hkb⟩ := computeDepthMetrics_snd_tenth td.bid DEPTH_WEIGHTS depth_weights_tenth
  obtain ⟨ka, hka⟩ := computeDepthMetrics_snd_tenth td.ask DEPTH_WEIGHTS depth_weights_tenth
  cases hp : ticks.filterMap (fun t => t.bind TickData.lp) with
  | nil => rw [hp] at hc; exact absurd hc (by simp)
  | cons p ps =>
    rw [hp] at hc
    simp only [Option.some.injEq] at hc
    subst hc
    refine ⟨?_, ?_, ?_, ?_⟩
    · simpa [extractLastTickDepth] using computeDepthMetrics_fst td.bid DEPTH_WEIGHTS
    · simpa [extractLastTickDepth] using computeDepthMetrics_fst td.ask DEPTH_WEIGHTS
    · show roundTo 2 (extractLastTickDepth (some td)).weightedBidQty = _
      rw [show (extractLastTickDepth (some td)).weightedBidQty
            = (computeDepthMetrics td.bid DEPTH_WEIGHTS).2 from rfl,
          hkb, roundTo_two_tenth, ← hkb, computeDepthMetrics_snd]
    · show roundTo 2 (extractLastTickDepth (some td)).weightedAskQty = _
      rw [show (extractLastTickDepth (some td)).weightedAskQty
            = (computeDepthMetrics td.ask DEPTH_WEIGHTS).2 from rfl,
          hka, roundTo_two_tenth, ← hka, computeDepthMetrics_snd]

/-- Claim C1 witness: On the concrete bucket with bid-quantity sums
`[100, 150, 120]` in arrival order, the produced candle has
`total_bid_qty = 120` (the last tick's sum, not 370 and not 100). -/
theorem candle_depth_from_last_tick_witness :
    exBucketC1.getLast? = some (some exLastTickC1) ∧
    (processMinuteCandle exBucketC1).map CandleRow.totalBidQty = some 120 := by
  refine ⟨rfl, ?_⟩
  cases hc : processMinuteCandle exBucketC1 with
  | none => exact absurd hc (by decide)
  | some c =>
    have h := candle_depth_from_last_tick exBucketC1 exLastTickC1 c rfl hc
    rw [show Option.map CandleRow.totalBidQty (some c) = some c.totalBidQty from rfl, h.1]
    decide

/-! ## OI category classifier (`oi_category_builder_v2.py`) -/

/-- `get_oi_category(price_change, oi_change)`: `None` on any zero-valued
change, otherwise the four-way sign table. -/
def getOICategory (priceChange : ℚ) (oiChange : ℤ) : Option String :=
  if priceChange = 0 ∨ oiChange = 0 then none
  else if priceChange > 0 ∧ oiChange > 0 then some "LB"
  else if priceChange < 0 ∧ oiChange > 0 then some "SB"
  else if priceChange > 0 ∧ oiChange < 0 then some "SC"
  else if priceChange < 0 ∧ oiChange < 0 then some "LU"
  else none

/-- A row of `futures_oi_category_1m` as computed by
`process_minute_data`. -/
structure OIRow where
  priceStart : ℚ
  priceEnd : ℚ
  oiStart : ℤ
  oiEnd : ℤ
  priceChange : ℚ
  oiChange : ℤ
  oiCategory : String
  deriving Repr, DecidableEq

/-- `process_minute_data(minute_ticks)`: requires at least two ticks,
parseable first and last ticks carrying both `oi` and `lp`; computes the
price and OI deltas and skips the bucket (returns `None`) whenever
`get_oi_category` yields no category. -/
def processMinuteData (minuteTicks : List Tick) : Option OIRow :=
  if minuteTicks.length < 2 then none
  else
    match minuteTicks.head?, minuteTicks.getLast? with
    | some (some ft), some (some lt) =>
      match ft.oi, lt.oi with
      | some oiStart, some oiEnd =>
        match ft.lp, lt.lp with
        | some priceStart, some priceEnd =>
          let priceChange := priceEnd - priceStart
          let oiChange := oiEnd - oiStart
          match getOICategory priceChange oiChange with
          | none => none
          | some cat =>
            some ⟨priceStart, priceEnd, oiStart, oiEnd, priceChange, oiChange, cat⟩
        | _, _ => none
      | _, _ => none
    | _, _ => none

/-- A keyed store models a SQLite table with a primary key: at most one
row per key, `INSERT OR REPLACE` overwrites in place. -/
def Store (row : Type) : Type := ℤ × ℤ → Option row

/-- `INSERT OR REPLACE` keyed on `(instrument_token, time_minute)`. -/
def upsertRow {row : Type} (s : Store row) (k : ℤ × ℤ) (r : row) : Store row :=
  fun k' => if k' = k then some r else s k'

/-- The per-bucket write step of `process_new_ticks` in the OI builder:
buckets whose `process_minute_data` is `None` are skipped (no placeholder
row), the rest are upserted. -/
def oiWriteStep (s : Store OIRow) (k : ℤ × ℤ) (minuteTicks : List Tick) : Store OIRow :=
  match processMinuteData minuteTicks with
  | none => s
  | some r => upsertRow s k r

/-- Claim C4: For a futures minute bucket whose first and last ticks carry
valid start/end price and start/end OI, the emitted category is the pure
sign function of `(price_change, oi_change)`: `LB`, `SB`, `SC`, `LU` on
the four strict sign pairs; and whenever either change is zero the bucket
produces no row at all — `process_minute_data` returns `None` and the
write step leaves the store untouched. -/
theorem oi_category_pure_sign (ticks : List Tick) (ft lt : TickData)
    (priceStart priceEnd : ℚ) (oiStart oiEnd : ℤ)
    (hlen : 2 ≤ ticks.length)
    (hfirst : ticks.head? = some (some ft)) (hlast : ticks.getLast? = some (some lt))
    (hps : ft.lp = some priceStart) (hpe : lt.lp = some priceEnd)
    (hos : ft.oi = some oiStart) (hoe : lt.oi = some oiEnd) :
    ((priceEnd - priceStart > 0 ∧ oiEnd - oiStart > 0 →
        (processMinuteData ticks).map OIRow.oiCategory = some "LB") ∧
     (priceEnd - priceStart < 0 ∧ oiEnd - oiStart > 0 →
        (processMinuteData ticks).map OIRow.oiCategory = some "SB") ∧
     (priceEnd - priceStart > 0 ∧ oiEnd - oiStart < 0 →
        (processMinuteData ticks).map OIRow.oiCategory = some "SC") ∧
     (priceEnd - priceStart < 0 ∧ oiEnd - oiStart < 0 →
        (processMinuteData ticks).map OIRow.oiCategory = some "LU")) ∧
    (priceEnd - priceStart = 0 ∨ oiEnd - oiStart = 0 →
        processMinuteData ticks = none ∧
        ∀ (s : Store OIRow) (k : ℤ × ℤ), oiWriteStep s k ticks = s) := by
  have hnotlt : ¬ ticks.length < 2 := by omega
  have hred : processMinuteData ticks
      = match getOICategory (priceEnd - priceStart) (oiEnd - oiStart) with
        | none => none
        | some cat =>
          some ⟨priceStart, priceEnd, oiStart, oiEnd,
                priceEnd - priceStart, oiEnd - oiStart, cat⟩ := by
    rw [processMinuteData, if_neg hnotlt, hfirst, hlast]
    simp only [hos, hoe, hps, hpe]
  constructor
  · refine ⟨fun h => ?_, fun h => ?_, fun h => ?_, fun h => ?_⟩ <;>
      rw [hred] <;>
      rw [getOICategory] <;>
      rw [if_neg (by push_neg; refine ⟨fun h' => absurd h'.symm ?_, fun h' => absurd h'.symm ?_⟩ <;>
            first
              | exact ne_of_lt h.1
              | exact ne_of_gt h.1
              | exact ne_of_lt h.2
              | exact ne_of_gt h.2)]
    · rw [if_pos h]; rfl
    · rw [if_neg (by rintro ⟨h1, _⟩; exact absurd h1 (asymm h.1)), if_pos h]; rfl
    · rw [if_neg (by rintro ⟨_, h2⟩; exact absurd h2 (asymm h.2)),
          if_neg (by rintro ⟨h1, _⟩; exact absurd h1 (by linarith [h.2])), if_pos h]
      rfl
    · rw [if_neg (by rintro ⟨h1, _⟩; exact absurd h1 (asymm h.1)),
          if_neg (by rintro ⟨_, h2⟩; exact absurd h2 (asymm h.2)),
          if_neg (by rintro ⟨h1, _⟩; exact absurd h1 (asymm h.1)), if_pos h]
      rfl
  · intro h
    have hnone : processMinuteData ticks = none := by
      rw [hred, getOICategory, if_pos h]
    exact ⟨hnone, fun s k => by rw [oiWriteStep, hnone]⟩

/-- First tick of the concrete C4 bucket: price 100, OI 1000. -/
def exOIFirstTick : TickData := ⟨some 100, none, some 1000, [], []⟩

/-- Last tick of the concrete C4 bucket: price 105, OI 1200, so
`price_change = +5` and `oi_change = +200`. -/
def exOILastTick : TickData := ⟨some 105, none, some 1200, [], []⟩

/-- Last tick of the zero-change C4 bucket: price back to 100. -/
def exOIFlatTick : TickData := ⟨some 100, none, some 1200, [], []⟩

/-- Claim C4 witness: The bucket with `price_change = +5, oi_change = +200`
is labelled `LB`, and the bucket whose price change is zero stores no row
at all. -/
theorem oi_category_pure_sign_witness :
    (2 ≤ [some exOIFirstTick, some exOILastTick].length ∧
      (processMinuteData [some exOIFirstTick, some exOILastTick]).map OIRow.oiCategory
        = some "LB") ∧
    processMinuteData [some exOIFirstTick, some exOIFlatTick] = none := by
  refine ⟨⟨by decide, ?_⟩, ?_⟩
  · exact (oi_category_pure_sign [some exOIFirstTick, some exOILastTick]
      exOIFirstTick exOILastTick 100 105 1000 1200
      (by decide) rfl rfl rfl rfl rfl rfl).1.1 ⟨by norm_num, by norm_num⟩
  · exact ((oi_category_pure_sign [some exOIFirstTick, some exOIFlatTick]
      exOIFirstTick exOIFlatTick 100 100 1000 1200
      (by decide) rfl rfl rfl rfl rfl rfl).2 (Or.inl (by norm_num))).1

/-! ## Alert engine (`alert_engine_pro.py`) -/

/-- `DepthBias` enum. -/
inductive DepthBias
  | BUYER_DOMINANT
  | SELLER_DOMINANT
  | NEUTRAL
  deriving Repr, DecidableEq

/-- `MarketRegime` enum (the alert engine's four regimes). -/
inductive MarketRegime
  | TRENDING_UP
  | TRENDING_DOWN
  | RANGING
  | HIGH_VOLATILITY
  deriving Repr, DecidableEq

/-- `VixState` enum. -/
inductive VixState
  | LOW
  | NORMAL
  | HIGH
  | EXTREME
  deriving Repr, DecidableEq

/-- The field of the analytics row that `get_depth_strength` reads
(`analytics.get('weighted_bid_ask_ratio')`, `None` when absent). -/
structure AnalyticsRow where
  weightedBidAskRatio : Option ℚ
  deriving Repr, DecidableEq

/-- `get_oi_weight(oi_category)`: LB/SB → 1.0, SC/LU → 0.6, else 1.0. -/
def getOIWeight (oiCategory : String) : ℚ :=
  if oiCategory = "LB" ∨ oiCategory = "SB" then 1
  else if oiCategory = "SC" ∨ oiCategory = "LU" then 6/10
  else 1

/-- `get_depth_strength(analytics)`: band the weighted bid/ask ratio into
a label and a score multiplier. -/
def getDepthStrength (analytics : AnalyticsRow) : String × ℚ :=
  match analytics.weightedBidAskRatio with
  | none => ("UNKNOWN", 1)
  | some r =>
    if r > 2 then ("STRONG_BUYER", 12/10)
    else if r ≥ 12/10 then ("BUYER", 1)
    else if r ≥ 8/10 then ("NEUTRAL", 8/10)
    else if r ≥ 5/10 then ("SELLER", 1)
    else ("STRONG_SELLER", 12/10)

/-- `REGIME_CONFIDENCE_CAPS`. -/
def regimeConfidenceCap : MarketRegime → ℤ
  | .TRENDING_UP => 100
  | .TRENDING_DOWN => 100
  | .RANGING => 65
  | .HIGH_VOLATILITY => 55

/-- `REGIME_CONFIDENCE_SCALE`. -/
def regimeConfidenceScale : MarketRegime → ℚ
  | .TRENDING_UP => 1
  | .TRENDING_DOWN => 1
  | .RANGING => 85/100
  | .HIGH_VOLATILITY => 7/10

/-- The last four statements of `calculate_confidence` (lines 687–696):
scale by the regime factor, clamp to the regime cap, and return
`min(100, max(0, score))`. -/
def applyRegimeLimits (regime : MarketRegime) (score : ℤ) : ℤ :=
  let score := pyInt ((score : ℚ) * regimeConfidenceScale regime)
  let score := if score > regimeConfidenceCap regime then regimeConfidenceCap regime else score
  min 100 (max 0 score)

/-- `calculate_confidence(oi_category, depth_bias, sector_bias,
index_bias, regime, vix_state, analytics)`: the additive score with OI and
depth strength weighting, sector/index/trend/VIX contributions, the
OI-depth conflict halving, then the regime scale, cap and final clamp. -/
def calculateConfidence (oiCategory : String) (depthBias : DepthBias)
    (sectorBias indexBias : String) (regime : MarketRegime) (vixState : VixState)
    (analytics : Option AnalyticsRow) : ℤ :=
  let oiWeight := getOIWeight oiCategory
  let depthMultiplier : ℚ :=
    match analytics with
    | none => 1
    | some a => (getDepthStrength a).2
  let oiBullish := oiCategory = "LB" ∨ oiCategory = "SC"
  let oiBearish := oiCategory = "SB" ∨ oiCategory = "LU"
  let depthBullish := depthBias = DepthBias.BUYER_DOMINANT
  let depthBearish := depthBias = DepthBias.SELLER_DOMINANT
  let oiDepthAgree := (oiBullish ∧ depthBullish) ∨ (oiBearish ∧ depthBearish)
  let oiDepthPoints : ℤ :=
    if (oiBullish ∧ depthBullish) ∨ (oiBearish ∧ depthBearish) then 40
    else if oiBullish ∨ oiBearish ∨ depthBullish ∨ depthBearish then 20
    else 0
  let oiDepthPoints := pyInt ((oiDepthPoints : ℚ) * oiWeight)
  let oiDepthPoints := pyInt ((oiDepthPoints : ℚ) * depthMultiplier)
  let score := oiDepthPoints
  let score := score +
    (if sectorBias = "BULLISH" ∧ (oiBullish ∨ depthBullish) then 30
     else if sectorBias = "BEARISH" ∧ (oiBearish ∨ depthBearish) then 30
     else if sectorBias = "NEUTRAL" then 15
     else 0)
  let score := score +
    (if indexBias = "BULLISH" ∧ (oiBullish ∨ depthBullish) then 20
     else if indexBias = "BEARISH" ∧ (oiBearish ∨ depthBearish) then 20
     else if indexBias = "MIXED" then 10
     else 0)
  let score := score +
    (if regime = MarketRegime.TRENDING_UP ∧ (oiBullish ∨ depthBullish) then 5
     else if regime = MarketRegime.TRENDING_DOWN ∧ (oiBearish ∨ depthBearish) then 5
     else 0)
  let score := score +
    (if vixState = VixState.LOW ∨ vixState = VixState.NORMAL then 5
     else if vixState = VixState.HIGH then 2
     else 0)
  let score :=
    if ¬oiDepthAgree ∧ oiCategory ≠ "NA" ∧
        ((oiBullish ∧ depthBearish) ∨ (oiBearish ∧ depthBullish)) then
      pyInt ((score : ℚ) * (5/10))
    else score
  applyRegimeLimits regime score

theorem applyRegimeLimits_bounds (regime : MarketRegime) (score : ℤ) :
    0 ≤ applyRegimeLimits regime score ∧
    applyRegimeLimits regime score ≤ 100 ∧
    applyRegimeLimits regime score ≤ regimeConfidenceCap regime := by
  have hcap : 0 ≤ regimeConfidenceCap regime := by
    cases regime <;> simp [regimeConfidenceCap]
  rw [applyRegimeLimits]
  set s := pyInt ((score : ℚ) * regimeConfidenceScale regime) with hs
  set s' := if s > regimeConfidenceCap regime then regimeConfidenceCap regime else s with hs'
  have hscap : s' ≤ regimeConfidenceCap regime := by
    rw [hs']
    split
    · exact le_refl _
    · omega
  refine ⟨le_min (by norm_num) (le_max_left 0 s'), min_le_left _ _, ?_⟩
  exact le_trans (min_le_right _ _) (max_le hcap hscap)

/-- Claim C5: For every combination of OI category, depth bias, sector and
index bias, regime, VIX state and analytics row, the confidence score lies
in `[0, 100]` and never exceeds the active regime's cap (100 for
TRENDING_UP/TRENDING_DOWN, 65 for RANGING, 55 for HIGH_VOLATILITY) — in
particular a RANGING score is at most 65 however large the raw additive
score was. -/
theorem calculate_confidence_bounds (oiCategory : String) (depthBias : DepthBias)
    (sectorBias indexBias : String) (regime : MarketRegime) (vixState : VixState)
    (analytics : Option AnalyticsRow) :
    0 ≤ calculateConfidence oiCategory depthBias sectorBias indexBias regime vixState analytics ∧
    calculateConfidence oiCategory depthBias sectorBias indexBias regime vixState analytics ≤ 100 ∧
    calculateConfidence oiCategory depthBias sectorBias indexBias regime vixState analytics
      ≤ regimeConfidenceCap regime := by
  exact applyRegimeLimits_bounds regime _

/-- `ALERT_COOLDOWN_MINUTES = 5`. -/
def ALERT_COOLDOWN_MINUTES : ℤ := 5

/-- `CONFIDENCE_CHANGE_THRESHOLD = 10`. -/
def CONFIDENCE_CHANGE_THRESHOLD : ℤ := 10

/-- The per-instrument entry of `alert_cooldown_state`, as written by
`update_cooldown_state`: time of the last fired alert (truncated to the
minute, modelled as an integer minute index), its action and its
confidence. -/
structure CooldownState where
  lastAlertTime : ℤ
  lastAlertAction : String
  lastAlertConfidence : ℤ
  deriving Repr, DecidableEq

/-- `is_in_cooldown(symbol, action, current_time_str, current_confidence)`
for one instrument: `state` is that instrument's entry of
`alert_cooldown_state` (`none` when the symbol is absent).  Both
timestamps are compared at minute resolution. -/
def isInCooldown (state : Option CooldownState) (action : String)
    (currentTime currentConfidence : ℤ) : Bool :=
  match state with
  | none => false
  | some s =>
    if s.lastAlertAction ≠ action then false
    else
      let elapsedMinutes := currentTime - s.lastAlertTime
      if elapsedMinutes < ALERT_COOLDOWN_MINUTES then
        if CONFIDENCE_CHANGE_THRESHOLD ≤ |currentConfidence - s.lastAlertConfidence| then
          false
        else true
      else false

/-- `update_cooldown_state(symbol, action, time_str, confidence)`. -/
def updateCooldownState (action : String) (time confidence : ℤ) : CooldownState :=
  ⟨time, action, confidence⟩

/-- Claim C7: When an instrument's last fired alert had the same action less
than 5 minutes before the current minute, the cooldown check suppresses
the new alert iff the absolute confidence change from the last fired value
is below 10 points (so a move of ≥ 10 points passes through); and a
different action from the last fired one is never suppressed. -/
theorem cooldown_suppression (s : CooldownState) (action : String)
    (currentTime currentConfidence : ℤ)
    (_helapsed : 0 ≤ currentTime - s.lastAlertTime)
    (hwindow : currentTime - s.lastAlertTime < 5) :
    (s.lastAlertAction = action →
      (isInCooldown (some s) action currentTime currentConfidence = true ↔
        |currentConfidence - s.lastAlertConfidence| < 10)) ∧
    (s.lastAlertAction ≠ action →
      isInCooldown (some s) action currentTime currentConfidence = false) := by
  constructor
  · intro hact
    rw [isInCooldown]
    rw [if_neg (by simp [hact]), if_pos (by exact hwindow)]
    constructor
    · intro h
      by_contra hge
      rw [if_pos (by rw [CONFIDENCE_CHANGE_THRESHOLD]; omega)] at h
      exact Bool.false_ne_true h
    · intro h
      rw [if_neg (by rw [CONFIDENCE_CHANGE_THRESHOLD]; omega)]
  · intro hact
    rw [isInCooldown, if_pos (by simp [hact])]

/-- Claim C7 witness: Last fired alert: `(BUY_CE, confidence 70)` at minute
0.  At minute 3 (within the 5-minute window) the same action with
confidence 72 (Δ = 2 < 10) is suppressed, while confidence 85
(Δ = 15 ≥ 10) passes through, and a different action `BUY_PE` is not
suppressed. -/
theorem cooldown_suppression_witness :
    (0 : ℤ) ≤ 3 - 0 ∧ (3 - 0 : ℤ) < 5 ∧
    isInCooldown (some ⟨0, "BUY_CE", 70⟩) "BUY_CE" 3 72 = true ∧
    isInCooldown (some ⟨0, "BUY_CE", 70⟩) "BUY_CE" 3 85 = false ∧
    isInCooldown (some ⟨0, "BUY_CE", 70⟩) "BUY_PE" 3 72 = false := by
  have h1 := cooldown_suppression ⟨0, "BUY_CE", 70⟩ "BUY_CE" 3 72 (by norm_num) (by norm_num)
  have h2 := cooldown_suppression ⟨0, "BUY_CE", 70⟩ "BUY_CE" 3 85 (by norm_num) (by norm_num)
  have h3 := cooldown_suppression ⟨0, "BUY_CE", 70⟩ "BUY_PE" 3 72 (by norm_num) (by norm_num)
  refine ⟨by norm_num, by norm_num, (h1.1 rfl).mpr (by norm_num), ?_, h3.2 (by decide)⟩
  have := (h2.1 rfl)
  cases hb : isInCooldown (some ⟨0, "BUY_CE", 70⟩) "BUY_CE" 3 85
  · rfl
  · exact absurd (this.mp hb) (by norm_num)

/-- The per-instrument entry of `pending_signal_state`. -/
structure PendingSignal where
  pendingAction : String
  pendingTime : ℤ
  deriving Repr, DecidableEq

/-- `check_signal_confirmation(symbol, action, time_str)` for one
instrument: given that instrument's entry of `pending_signal_state`
(`none` when absent), returns whether the signal is confirmed to fire
together with the instrument's new pending entry.  An absent symbol
records the signal as pending; an identical action reappearing after
`0 < elapsed ≤ 2` minutes confirms (and clears the entry); a changed
action or a gap of more than 2 minutes resets the entry to the new
signal; otherwise the entry is kept. -/
def checkSignalConfirmation (state : Option PendingSignal) (action : String)
    (time : ℤ) : Bool × Option PendingSignal :=
  match state with
  | none => (false, some ⟨action, time⟩)
  | some p =>
    let elapsed := time - p.pendingTime
    if p.pendingAction = action ∧ 0 < elapsed ∧ elapsed ≤ 2 then (true, none)
    else if p.pendingAction ≠ action ∨ elapsed > 2 then (false, some ⟨action, time⟩)
    else (false, some p)

/-- Claim C8: A signal fires only if it was
already the instrument's recorded pending signal and reappears identically
0–2 minutes later; a differing action or a gap above 2 minutes does not
fire and replaces the pending state with the new signal.  In particular
the same action at minutes `T` and `T+1` fires, while action `A` at `T`
followed by `B ≠ A` at `T+1` does not fire and records `B` as pending. -/
theorem signal_confirmation (A B : String) (T : ℤ) (hAB : A ≠ B) :
    (∀ (st : Option PendingSignal) (action : String) (t : ℤ),
      (checkSignalConfirmation st action t).1 = true →
      ∃ p, st = some p ∧ p.pendingAction = action ∧
        0 ≤ t - p.pendingTime ∧ t - p.pendingTime ≤ 2) ∧
    (∀ (p : PendingSignal) (action : String) (t : ℤ),
      p.pendingAction ≠ action ∨ t - p.pendingTime > 2 →
      checkSignalConfirmation (some p) action t = (false, some ⟨action, t⟩)) ∧
    (checkSignalConfirmation none A T = (false, some ⟨A, T⟩) ∧
      checkSignalConfirmation (some ⟨A, T⟩) A (T + 1) = (true, none)) ∧
    (checkSignalConfirmation (some ⟨A, T⟩) B (T + 1) = (false, some ⟨B, T + 1⟩)) := by
  refine ⟨?_, ?_, ⟨rfl, ?_⟩, ?_⟩
  · intro st action t h
    match st with
    | none => exact absurd h (by simp [checkSignalConfirmation])
    | some p =>
      refine ⟨p, rfl, ?_⟩
      rw [checkSignalConfirmation] at h
      by_cases hcond : p.pendingAction = action ∧ 0 < t - p.pendingTime ∧ t - p.pendingTime ≤ 2
      · exact ⟨hcond.1, le_of_lt hcond.2.1, hcond.2.2⟩
      · rw [if_neg hcond] at h
        split at h <;> exact absurd h (by simp)
  · intro p action t hreset
    rw [checkSignalConfirmation]
    rw [if_neg (by rintro ⟨h1, h2, h3⟩; rcases hreset with h | h; exacts [h h1, by omega]),
        if_pos hreset]
  · rw [checkSignalConfirmation]
    rw [if_pos ⟨rfl, by change (0 : ℤ) < T + 1 - T; omega, by change (T + 1 - T : ℤ) ≤ 2; omega⟩]
  · rw [checkSignalConfirmation]
    rw [if_neg (by rintro ⟨h1, -⟩; exact hAB h1), if_pos (Or.inl hAB)]

/-- Claim C8 witness: With the concrete actions `BUY_PE` and `BUY_CE` and
minute 100: a fire implies a matching pending entry 0–2 minutes old; a
`BUY_PE` at 100 then `BUY_PE` at 101 fires; `BUY_PE` at 100 then `BUY_CE`
at 101 does not fire and records `BUY_CE` as pending. -/
theorem signal_confirmation_witness :
    "BUY_PE" ≠ "BUY_CE" ∧
    checkSignalConfirmation none "BUY_PE" 100 = (false, some ⟨"BUY_PE", 100⟩) ∧
    checkSignalConfirmation (some ⟨"BUY_PE", 100⟩) "BUY_PE" 101 = (true, none) ∧
    checkSignalConfirmation (some ⟨"BUY_PE", 100⟩) "BUY_CE" 101
      = (false, some ⟨"BUY_CE", 101⟩) := by
  have h := signal_confirmation "BUY_PE" "BUY_CE" 100 (by decide)
  exact ⟨by decide, h.2.2.1.1, h.2.2.1.2, h.2.2.2⟩

/-- The identifying columns of an `alerts_final` row (autoincrement id and
the remaining context columns do not affect row identity per
`(symbol, time)` and are omitted). -/
structure AlertRow where
  time : ℤ
  symbol : String
  confidence : ℤ
  recommendedAction : String
  deriving Repr, DecidableEq

/-- `save_alert(conn, context)` of `alert_engine_pro.py` (lines
1013–1051): a plain `INSERT` into the append-only `alerts_final` table.
The function performs no existence check on `(symbol, time)` before
inserting. -/
def saveAlert (table : List AlertRow) (context : AlertRow) : List AlertRow :=
  table ++ [context]

/-- Number of persisted alert rows for one `(instrument, minute)` key
(the `SELECT COUNT(*) ... WHERE symbol = ? AND time = ?` of the legacy
engine). -/
def alertCount (table : List AlertRow) (symbol : String) (time : ℤ) : ℕ :=
  table.countP (fun r => decide (r.symbol = symbol ∧ r.time = time))

/-- The legacy engine's guarded insert (`alert_engine_pro_old.py`,
`run_alert_engine` steps 9 and 12): skip the bucket when an alert row for
`(symbol, time)` already exists, otherwise insert. -/
def legacyGuardedInsert (table : List AlertRow) (row : AlertRow) : List AlertRow :=
  if 0 < alertCount table row.symbol row.time then table else table ++ [row]

/-- An alert context used in concrete statements: BANKNIFTY at minute 915,
confidence 70, `BUY_CE`. -/
def exAlertRow : AlertRow := ⟨915, "BANKNIFTY", 70, "BUY_CE"⟩

/-- Claim C6 counterexample: `save_alert` of the current engine performs
no duplicate check — calling it twice with the same context persists two
alert rows for the same `(instrument, minute)`, so "at most one persisted
alert row ever exists per (instrument, minute)" fails for the engine the
claim describes. -/
theorem save_alert_inserts_duplicates :
    alertCount (saveAlert (saveAlert [] exAlertRow) exAlertRow) "BANKNIFTY" 915 = 2 := by
  decide

/-- Claim C6 (amended): only the legacy engine checks, before insert, that
no alert row exists for the same `(instrument, exact minute)`: its guarded
insert leaves the table unchanged when a row for the key exists, and
preserves at-most-one-row-per-key; the current engine's `save_alert`
inserts unconditionally. -/
theorem legacy_insert_one_per_minute (table : List AlertRow) (row : AlertRow)
    (sym : String) (t : ℤ) (h : alertCount table sym t ≤ 1) :
    (0 < alertCount table row.symbol row.time → legacyGuardedInsert table row = table) ∧
    alertCount (legacyGuardedInsert table row) sym t ≤ 1 := by
  constructor
  · intro hex
    rw [legacyGuardedInsert, if_pos hex]
  · rw [legacyGuardedInsert]
    split
    · exact h
    · next hnotex =>
      rw [alertCount, List.countP_append]
      have h' : List.countP (fun r => decide (r.symbol = sym ∧ r.time = t)) table ≤ 1 := h
      by_cases hkey : row.symbol = sym ∧ row.time = t
      · have htab : List.countP (fun r => decide (r.symbol = sym ∧ r.time = t)) table = 0 := by
          have h0 : alertCount table row.symbol row.time = 0 := by omega
          rw [alertCount, hkey.1, hkey.2] at h0
          exact h0
        have hone : List.countP (fun r => decide (r.symbol = sym ∧ r.time = t)) [row] ≤ 1 :=
          le_trans (List.countP_le_length _) (by simp)
        omega
      · have hzero : List.countP (fun r => decide (r.symbol = sym ∧ r.time = t)) [row] = 0 := by
          simp only [List.countP_cons, List.countP_nil, decide_eq_true_eq]
          simp [hkey]
        omega

/-- Claim C6 witness: a table already holding the BANKNIFTY/915 row is
left unchanged by the legacy guarded insert of the same key, and the
at-most-one bound is preserved. -/
theorem legacy_insert_one_per_minute_witness :
    alertCount [exAlertRow] "BANKNIFTY" 915 ≤ 1 ∧
    legacyGuardedInsert [exAlertRow] exAlertRow = [exAlertRow] ∧
    alertCount (legacyGuardedInsert [exAlertRow] exAlertRow) "BANKNIFTY" 915 ≤ 1 := by
  have h := legacy_insert_one_per_minute [exAlertRow] exAlertRow "BANKNIFTY" 915 (by decide)
  exact ⟨by decide, h.1 (by decide), h.2⟩

/-! ## Incremental tick selection (`candle_builder_1m.py`,
`process_new_ticks`) -/

/-- A row of the `ticks_json` source table as the candle builder reads it:
instrument token, the tick's IST minute bucket, and the parsed payload. -/
structure RawTick where
  instrumentToken : ℤ
  minute : ℤ
  tickJson : Tick
  deriving Repr, DecidableEq

/-- The tick fetch of `process_new_ticks` (lines 443–467, with
`ALLOWED_TOKENS = None`): every tick whose minute bucket is strictly after
the last completed minute is selected.  The query has no upper bound — in
particular nothing excludes the current wall-clock minute. -/
def fetchTicks (ticks : List RawTick) (lastCompletedMinute : Option ℤ) : List RawTick :=
  match lastCompletedMinute with
  | none => ticks
  | some m => ticks.filter (fun t => decide (m < t.minute))

/-- The `(instrument_token, time_minute)` keys for which
`process_new_ticks` upserts a candle row during one cycle: the fetched
ticks are grouped by instrument and minute and every bucket with a valid
candle is written. -/
def processNewTicksWrites (ticks : List RawTick) (lastCompletedMinute : Option ℤ) :
    List (ℤ × ℤ) :=
  let fetched := fetchTicks ticks lastCompletedMinute
  let keys := (fetched.map (fun t => (t.instrumentToken, t.minute))).dedup
  keys.filter (fun k =>
    (processMinuteCandle ((fetched.filter
      (fun t => decide (t.instrumentToken = k.1 ∧ t.minute = k.2))).map
        RawTick.tickJson)).isSome)

/-- Claim C3 (code behaviour at the failing input): with the last
completed minute 929 and the wall clock inside minute 930, a single tick
arriving in the still-in-progress minute 930 is fetched (the query has no
upper bound) and a candle row is written for minute 930 — the bucket is
finalized while it can still receive ticks, contradicting both the claim
and the builder's own docstrings ("Current running minute is NEVER
touched"). -/
theorem candle_builder_writes_current_minute :
    processNewTicksWrites [⟨1, 930, some ⟨some 100, some 10, none, [], []⟩⟩] (some 929)
      = [(1, 930)] := by
  decide

/-! ## Replay / idempotence of the keyed stages -/

/-- `INSERT OR REPLACE` a computed batch of rows, in order, into a keyed
store (one cycle's committed writes). -/
def writeAll {row : Type} (rows : List ((ℤ × ℤ) × row)) (s : Store row) : Store row :=
  rows.foldl (fun s kr => upsertRow s kr.1 kr.2) s

/-- The last row a batch writes for a key, if any. -/
def lastWrite {row : Type} : List ((ℤ × ℤ) × row) → ℤ × ℤ → Option row
  | [], _ => none
  | kr :: rest, k =>
    match lastWrite rest k with
    | some r => some r
    | none => if kr.1 = k then some kr.2 else none

theorem writeAll_apply {row : Type} (rows : List ((ℤ × ℤ) × row)) (s : Store row) (k : ℤ × ℤ) :
    writeAll rows s k
      = match lastWrite rows k with
        | some r => some r
        | none => s k := by
  induction rows generalizing s with
  | nil => rfl
  | cons kr rest ih =>
    show writeAll rest (upsertRow s kr.1 kr.2) k = _
    rw [ih]
    cases h : lastWrite rest k with
    | some r => rw [lastWrite, h]
    | none =>
      rw [lastWrite, h, upsertRow]
      by_cases hk : kr.1 = k
      · rw [if_pos hk, if_pos hk.symm]
      · rw [if_neg hk, if_neg (fun hk' => hk hk'.symm)]

/-- Replaying the same batch over a keyed store is a no-op: the upserts
overwrite each key with the same value. -/
theorem writeAll_idempotent {row : Type} (rows : List ((ℤ × ℤ) × row)) (s : Store row) :
    writeAll rows (writeAll rows s) = writeAll rows s := by
  funext k
  rw [writeAll_apply, writeAll_apply]
  cases h : lastWrite rows k with
  | some r => rfl
  | none => rfl

/-- The candle rows one cycle of `process_new_ticks` computes from its
minute buckets (`candle_builder_1m.py` lines 504–544): buckets without a
valid candle are skipped, the rest are keyed by
`(instrument_token, time_minute)`. -/
def candleRows (buckets : List ((ℤ × ℤ) × List Tick)) : List ((ℤ × ℤ) × CandleRow) :=
  buckets.filterMap (fun b => (processMinuteCandle b.2).map (fun c => (b.1, c)))

/-- One candle-builder write cycle over a given set of buckets. -/
def runCandleCycle (buckets : List ((ℤ × ℤ) × List Tick)) (s : Store CandleRow) :
    Store CandleRow :=
  writeAll (candleRows buckets) s

/-- The OI rows one cycle of the OI builder's `process_new_ticks` computes
(`oi_category_builder_v2.py` lines 247–278). -/
def oiRows (buckets : List ((ℤ × ℤ) × List Tick)) : List ((ℤ × ℤ) × OIRow) :=
  buckets.filterMap (fun b => (processMinuteData b.2).map (fun r => (b.1, r)))

/-- One OI-builder write cycle over a given set of buckets. -/
def runOICycle (buckets : List ((ℤ × ℤ) × List Tick)) (s : Store OIRow) : Store OIRow :=
  writeAll (oiRows buckets) s

/-- Claim C2 (amended): the candle and OI stages are idempotent under
replay — re-running a cycle over the same minute buckets reproduces the
identical keyed store (per-bucket computation is a pure function of the
bucket, and the `INSERT OR REPLACE` upsert overwrites rather than
duplicates). -/
theorem candle_oi_replay_idempotent (buckets : List ((ℤ × ℤ) × List Tick))
    (sc : Store CandleRow) (so : Store OIRow) :
    runCandleCycle buckets (runCandleCycle buckets sc) = runCandleCycle buckets sc ∧
    runOICycle buckets (runOICycle buckets so) = runOICycle buckets so :=
  ⟨writeAll_idempotent (candleRows buckets) sc, writeAll_idempotent (oiRows buckets) so⟩

/-! ## Indicator engine state (`comprehensive_analytics_engine.py`) -/

/-- The mutable state of one `KalmanFilter` instance
(`posteri_estimate`, `posteri_error_estimate`); `process_variance = 1e-5`
and `measurement_variance = 1e-1` are fixed at construction. -/
structure KalmanState where
  posteriEstimate : ℚ
  posteriErrorEstimate : ℚ
  deriving Repr, DecidableEq

/-- A freshly constructed `KalmanFilter()`. -/
def kalmanInit : KalmanState := ⟨0, 1⟩

/-- `KalmanFilter.update(measurement)`: returns the mutated state and the
new posteriori estimate. -/
def kalmanUpdate (s : KalmanState) (measurement : ℚ) : KalmanState × ℚ :=
  let prioriEstimate := s.posteriEstimate
  let prioriErrorEstimate := s.posteriErrorEstimate + 1/100000
  let blendingFactor := prioriErrorEstimate / (prioriErrorEstimate + 1/10)
  let posteriEstimate := prioriEstimate + blendingFactor * (measurement - prioriEstimate)
  (⟨posteriEstimate, (1 - blendingFactor) * prioriErrorEstimate⟩, posteriEstimate)

/-- The Kalman-relevant slice of processing one candle through the
indicator engine (`process_latest_candles` appends the candle to the
rolling 1-minute window, then `calculate_all_indicators` early-returns the
default `kalman_value = 0` when the window holds fewer than 20 candles and
otherwise runs `kalman.update(current_price)`, mutating the per-instrument
filter).  Returns the new rolling state plus the `kalman_value` stored in
the emitted `minute_analytics` row. -/
def indicatorStepKalman (hist : List ℚ) (kal : KalmanState) (close : ℚ) :
    (List ℚ × KalmanState) × ℚ :=
  let hist := hist ++ [close]
  if hist.length < 20 then ((hist, kal), 0)
  else
    let u := kalmanUpdate kal close
    ((hist, u.1), u.2)

/-- An update step moves the estimate strictly toward (but not onto) a
measurement above it, and keeps the error estimate positive. -/
theorem kalmanUpdate_strict (s : KalmanState) (m : ℚ)
    (herr : 0 < s.posteriErrorEstimate + 1/100000) (hm : s.posteriEstimate < m) :
    s.posteriEstimate < (kalmanUpdate s m).2 ∧ (kalmanUpdate s m).2 < m ∧
    0 < (kalmanUpdate s m).1.posteriErrorEstimate := by
  obtain ⟨e, p⟩ := s
  have hE : 0 < p + 1/100000 := herr
  have hm' : e < m := hm
  have hden : 0 < p + 1/100000 + 1/10 := by linarith
  have hb0 : 0 < (p + 1/100000) / (p + 1/100000 + 1/10) := div_pos hE hden
  have hb1 : (p + 1/100000) / (p + 1/100000 + 1/10) < 1 := (div_lt_one hden).mpr (by linarith)
  simp only [kalmanUpdate]
  refine ⟨?_, ?_, ?_⟩
  · nlinarith [mul_pos hb0 (sub_pos.mpr hm')]
  · nlinarith [mul_pos (by linarith : (0:ℚ) < 1 - (p + 1/100000) / (p + 1/100000 + 1/10))
      (sub_pos.mpr hm')]
  · exact mul_pos (by linarith) hE

/-- The state's new estimate is the returned estimate. -/
theorem kalmanUpdate_estimate (s : KalmanState) (m : ℚ) :
    (kalmanUpdate s m).1.posteriEstimate = (kalmanUpdate s m).2 := rfl

/-- Claim C2 counterexample: the indicator stage is not idempotent under
replay.  Concretely, after 19 history closes of 100, processing the
minute candle with close 100 stores a first `kalman_value`; replaying the
same candle from the resulting engine state stores a strictly larger
`kalman_value` (the rolling window was re-appended and the Kalman filter
mutated again), so the replayed `minute_analytics` row is not
byte-identical to the original. -/
theorem indicator_replay_not_idempotent :
    (indicatorStepKalman
        (indicatorStepKalman (List.replicate 19 100) kalmanInit 100).1.1
        (indicatorStepKalman (List.replicate 19 100) kalmanInit 100).1.2 100).2
      ≠ (indicatorStepKalman (List.replicate 19 100) kalmanInit 100).2 := by
  have hlen1 : ¬ ((List.replicate 19 (100:ℚ) ++ [100]).length < 20) := by simp
  have hstep1 : indicatorStepKalman (List.replicate 19 100) kalmanInit 100
      = ((List.replicate 19 100 ++ [100], (kalmanUpdate kalmanInit 100).1),
         (kalmanUpdate kalmanInit 100).2) := by
    rw [indicatorStepKalman, if_neg hlen1]
  have hlen2 : ¬ (((List.replicate 19 (100:ℚ) ++ [100]) ++ [100]).length < 20) := by simp
  have hstep2 : indicatorStepKalman (List.replicate 19 100 ++ [100])
        (kalmanUpdate kalmanInit 100).1 100
      = (((List.replicate 19 100 ++ [100]) ++ [100],
          (kalmanUpdate (kalmanUpdate kalmanInit 100).1 100).1),
         (kalmanUpdate (kalmanUpdate kalmanInit 100).1 100).2) := by
    rw [indicatorStepKalman, if_neg hlen2]
  rw [hstep1, hstep2]
  have h1 := kalmanUpdate_strict kalmanInit 100 (by norm_num [kalmanInit]) (by norm_num [kalmanInit])
  have h2 := kalmanUpdate_strict (kalmanUpdate kalmanInit 100).1 100
    (by linarith [h1.2.2]) (by rw [kalmanUpdate_estimate]; exact h1.2.1)
  have hlt : (kalmanUpdate kalmanInit 100).2
      < (kalmanUpdate (kalmanUpdate kalmanInit 100).1 100).2 := by
    have := h2.1
    rwa [kalmanUpdate_estimate] at this
  exact ne_of_gt hlt

/-- The `Candle` dataclass of the analytics engine (timestamps as integer
minute indices). -/
structure Candle where
  timestamp : ℤ
  openP : ℚ
  high : ℚ
  low : ℚ
  close : ℚ
  volume : ℚ
  oi : ℚ
  oiChange : ℚ
  deriving Repr, DecidableEq

/-- `calculate_stochastic(candles, period)`: %K over the most recent
`period` candles — and `%D = %K` (`d = k` on line 395).  Defaults to
`(50, 50)` on short history, a flat window, or the (unreachable for
`period = 14`) empty slice whose `min()` would raise. -/
def calculateStochastic (candles : List Candle) (period : ℕ) : ℚ × ℚ :=
  if candles.length < period then (50, 50)
  else
    match candles.drop (candles.length - period) with
    | [] => (50, 50)
    | c :: cs =>
      let currentClose := ((c :: cs).getLast (List.cons_ne_nil c cs)).close
      let lowestLow := (cs.map Candle.low).foldl min c.low
      let highestHigh := (cs.map Candle.high).foldl max c.high
      if highestHigh - lowestLow = 0 then (50, 50)
      else
        let k := 100 * (currentClose - lowestLow) / (highestHigh - lowestLow)
        (k, k)

/-- The `stoch_signal` field of `calculate_all_indicators` (lines
720–727): defaults to 0, and when the window holds at least 15 candles is
+1 if `%K < 20` and `%K > %D`, −1 if `%K > 80` and `%K < %D`. -/
def stochSignal (candles : List Candle) : ℤ :=
  if 15 ≤ candles.length then
    let kd := calculateStochastic candles 14
    if kd.1 < 20 ∧ kd.1 > kd.2 then 1
    else if kd.1 > 80 ∧ kd.1 < kd.2 then -1
    else 0
  else 0

/-- Claim C9: the stochastic computation always returns `%D = %K`, so the
bullish gate (`%K < 20` and `%K > %D`) and the bearish gate (`%K > 80` and
`%K < %D`) are unsatisfiable and the stored `stoch_signal` is 0 for every
instrument and every rolling candle history. -/
theorem stoch_signal_always_zero (candles : List Candle) (period : ℕ) :
    (calculateStochastic candles period).2 = (calculateStochastic candles period).1 ∧
    stochSignal candles = 0 := by
  have hkd : ∀ (cs : List Candle) (p : ℕ),
      (calculateStochastic cs p).2 = (calculateStochastic cs p).1 := by
    intro cs p
    rw [calculateStochastic]
    split
    · rfl
    · split
      · rfl
      · dsimp only
        split
        · rfl
        · rfl
  refine ⟨hkd candles period, ?_⟩
  rw [stochSignal]
  split
  · have h := hkd candles 14
    rw [if_neg (by rw [h]; rintro ⟨-, hlt⟩; exact lt_irrefl _ hlt),
        if_neg (by rw [h]; rintro ⟨-, hlt⟩; exact lt_irrefl _ hlt)]
  · rfl

/-! ## VIX context (`comprehensive_analytics_engine.py`) -/

/-- `VIX_TOKEN = 264969`. -/
def VIX_TOKEN : ℤ := 264969

/-- The module-level `current_vix = 15.0`.  It is read in `analyze_vix`
and `calculate_all_indicators` and never reassigned anywhere in the
engine. -/
def currentVix : ℚ := 15

/-- The `.value` strings of the engine's `VixState` enum. -/
def VixState.value : VixState → String
  | .LOW => "LOW"
  | .NORMAL => "NORMAL"
  | .HIGH => "HIGH"
  | .EXTREME => "EXTREME"

/-- `analyze_vix()`: classify the module-level `current_vix`. -/
def analyzeVix : VixState :=
  if currentVix < 12 then VixState.LOW
  else if currentVix < 15 then VixState.NORMAL
  else if currentVix < 18 then VixState.HIGH
  else VixState.EXTREME

/-- The instrument tokens of `PROCESSING_TOKENS` (indices + stocks +
NBFC); the VIX token is deliberately not among them. -/
def PROCESSING_TOKENS : List ℤ :=
  [12601346, 12602626, 12601602,
   341249, 1270529, 779521, 492033, 1510401, 1346049,
   738561, 2714625, 2953217, 408065,
   12622082, 12621826, 12804354, 12706818, 12628994]

/-- The token gate of `process_latest_candles` (lines 1011–1015): the VIX
token is skipped explicitly, then any token outside `PROCESSING_TOKENS` is
skipped. -/
def processLatestCandlesHandlesToken (token : ℤ) : Bool :=
  if token = VIX_TOKEN then false
  else if token ∈ PROCESSING_TOKENS then true
  else false

/-- The `(vix_value, vix_state)` pair placed into every
`minute_analytics` row by `calculate_all_indicators` (lines 662–663; the
try-block never modifies these two keys). -/
def indicatorRowVixContext : ℚ × String := (currentVix, (analyzeVix).value)

/-- Claim C10: every indicator row carries the constant VIX context
`vix_value = 15.0`, `vix_state = "HIGH"` — the never-reassigned
`current_vix = 15.0` falls into the `HIGH` band of `analyze_vix`
(`15 < 15` fails, `15 < 18` holds) — and ticks of the VIX instrument
token are explicitly skipped by the processing loop, so nothing can feed
a different VIX value into the rows. -/
theorem vix_context_constant_high :
    indicatorRowVixContext = (15, "HIGH") ∧
    processLatestCandlesHandlesToken VIX_TOKEN = false := by
  constructor
  · rfl
  · rfl

end Trading
